import Mathlib

/-!
Shallow embedding of the neolink RTSP stream-lifecycle orchestrator
(src/rtsp/mod.rs) and its registry-facing adapter (src/rtsp/gst/server.rs),
together with theorems settling the specification claims about the retry
supervisor's backoff, login-failure classification, buffer-readiness gating,
the pause/resume decision engine, registry command delivery, client counting
and the fleet join loop.
-/

namespace NeolinkRtsp

/-- Tags are string identifiers for logical streams; a camera's primary tag
is mounted at the camera name, the secondary at name/subStream. -/
abbrev Tag := String

/-- The primary stream tag used as a concrete input in witnesses. -/
def mainTag : Tag := "mainStream"

/-- The secondary stream tag used as a concrete input in witnesses. -/
def subTag : Tag := "subStream"

/-- Constructors of the upstream library error type neolink_core::Error, as
far as the supervisor distinguishes them: the login classifier at
mod.rs lines 174-180 matches CameraLoginFail against a wildcard, so every
other cause is collapsed into otherCause with a numeric code. -/
inductive NeoError
  | CameraLoginFail
  | otherCause (code : Nat)
deriving DecidableEq

/-- An anyhow error chain: a neolink_core cause, an error from some other
library with no neolink_core cause anywhere in its chain, or a context
wrapper of the kind added by with_context. -/
inductive AnyErr
  | neo (e : NeoError)
  | foreign (code : Nat)
  | context (msg : String) (inner : AnyErr)
deriving DecidableEq

/-- The anyhow downcast_ref lookup for neolink_core::Error: walks the chain
and yields the underlying neolink_core cause when one exists. -/
def AnyErr.downcast_neolink : AnyErr → Option NeoError
  | .neo e => some e
  | .foreign _ => none
  | .context _ inner => AnyErr.downcast_neolink inner

/-- Failure classification handed to the retry supervisor
(mod.rs lines 156-159). -/
inductive CameraFailureKind
  | Fatal (e : AnyErr)
  | Retry (e : AnyErr)
deriving DecidableEq

/-- The map_err closure applied to a failed login (mod.rs lines 174-180):
downcast the error to neolink_core::Error, then CameraLoginFail becomes
Fatal and every other neolink_core cause becomes Retry. The unwrap on the
downcast panics when no neolink_core cause exists; the panic is modelled by
none. -/
def classify_login (e : AnyErr) : Option CameraFailureKind :=
  match AnyErr.downcast_neolink e with
  | some NeoError.CameraLoginFail => some (CameraFailureKind.Fatal e)
  | some _ => some (CameraFailureKind.Retry e)
  | none => none

/-- Five seconds expressed in microseconds (Duration::from_secs(5)). -/
def fiveSecondsUs : Nat := 5000000

/-- The update applied to the backoff variable when a retryable failure is
handled (mod.rs lines 112-114): double it if it is still below five
seconds, otherwise leave it unchanged. -/
def nextBackoff (b : Nat) : Nat :=
  if b < fiveSecondsUs then 2 * b else b

/-- The sleep delay, in microseconds, used at the n-th consecutive
retryable failure within one supervisor run: the local variable starts at
125 microseconds (mod.rs line 100) and is updated by nextBackoff after each
sleep (mod.rs lines 111-114). -/
def backoffSeq : Nat → Nat
  | 0 => 125
  | n + 1 => nextBackoff (backoffSeq n)

/-- The five typestates of the per-camera lifecycle (states module); the
supervisor-level claims only depend on which state is active. -/
inductive LifecycleState
  | Disconnected
  | Connected
  | Authenticated
  | Streaming
  | Paused
deriving DecidableEq

/-- Supervisor-visible per-camera state: the backoff local of the spawned
task together with the lifecycle state of the camera value
(mod.rs lines 97-118). -/
structure SupState where
  backoff : Nat
  state : LifecycleState
deriving DecidableEq

/-- Handling of one retryable failure (mod.rs lines 109-118): sleep for the
current backoff, update it, and rebuild the camera in the Disconnected
state from the shared data. -/
def handleRetry (s : SupState) : SupState :=
  { backoff := nextBackoff s.backoff, state := LifecycleState.Disconnected }

theorem backoffSeq_closed (n : Nat) : backoffSeq n = 125 * 2 ^ min n 16 := by
  induction n with
  | zero => rfl
  | succ n ih =>
    simp only [backoffSeq, ih, nextBackoff]
    rcases lt_or_le n 16 with h | h
    · have h2 : (2 : Nat) ^ n ≤ 2 ^ 15 := Nat.pow_le_pow_right (by norm_num) (by omega)
      have h15 : (2 : Nat) ^ 15 = 32768 := by norm_num
      have hmin : min n 16 = n := by omega
      have hmin2 : min (n + 1) 16 = n + 1 := by omega
      rw [hmin, hmin2, if_pos (by show 125 * 2 ^ n < 5000000; omega)]
      ring
    · have hmin : min n 16 = 16 := by omega
      have hmin2 : min (n + 1) 16 = 16 := by omega
      rw [hmin, hmin2, if_neg (by norm_num [fiveSecondsUs])]

theorem backoffSeq_le (n : Nat) : backoffSeq n ≤ 8192000 := by
  rw [backoffSeq_closed]
  have h1 : (2 : Nat) ^ min n 16 ≤ 2 ^ 16 :=
    Nat.pow_le_pow_right (by norm_num) (min_le_right _ _)
  have h2 : (2 : Nat) ^ 16 = 65536 := by norm_num
  omega

/-- Claim C1 is false as stated: the sleep delay at the seventeenth
consecutive retryable failure of one supervisor run is 8192000 microseconds
(8.192 seconds), which exceeds five seconds, and from that point on the
delay no longer doubles. -/
theorem c1_counterexample :
    backoffSeq 16 = 8192000 ∧ fiveSecondsUs < backoffSeq 16 ∧
      backoffSeq 17 ≠ 2 * backoffSeq 16 := by decide

/-- Claim C1 amended: within one supervisor run the backoff delay starts at
125 microseconds, is monotonically non-decreasing, doubles on each
consecutive retryable failure while it is still below five seconds, and
never exceeds 8192000 microseconds (8.192 seconds). -/
theorem c1_amended (n : Nat) :
    backoffSeq 0 = 125 ∧
    backoffSeq n ≤ backoffSeq (n + 1) ∧
    (backoffSeq n < fiveSecondsUs → backoffSeq (n + 1) = 2 * backoffSeq n) ∧
    backoffSeq n ≤ 8192000 := by
  refine ⟨rfl, ?_, ?_, backoffSeq_le n⟩
  · simp only [backoffSeq, nextBackoff]
    split <;> omega
  · intro h
    simp only [backoffSeq, nextBackoff]
    rw [if_pos h]

/-- Witness for the amended claim C1 at the first failure. -/
theorem c1_amended_witness :
    backoffSeq 0 = 125 ∧ backoffSeq 0 ≤ backoffSeq 1 ∧
      backoffSeq 1 = 2 * backoffSeq 0 ∧ backoffSeq 0 ≤ 8192000 := by
  obtain ⟨h1, h2, h3, h4⟩ := c1_amended 0
  exact ⟨h1, h2, h3 (by decide), h4⟩

/-- Claim C2: for every login failure whose chain carries a neolink_core
cause, the supervisor classifies it Fatal exactly when the cause is
CameraLoginFail, and classifies it Retryable for every other cause. -/
theorem c2_login_classification (e : AnyErr) (c : NeoError)
    (h : AnyErr.downcast_neolink e = some c) :
    (classify_login e = some (CameraFailureKind.Fatal e) ↔
      c = NeoError.CameraLoginFail) ∧
    (c ≠ NeoError.CameraLoginFail →
      classify_login e = some (CameraFailureKind.Retry e)) := by
  cases c with
  | CameraLoginFail => simp [classify_login, h]
  | otherCause k => simp [classify_login, h]

/-- Witness for claim C2: a context-wrapped CameraLoginFail cause is
classified Fatal. -/
theorem c2_login_classification_witness :
    classify_login (AnyErr.context mainTag (AnyErr.neo NeoError.CameraLoginFail)) =
      some (CameraFailureKind.Fatal
        (AnyErr.context mainTag (AnyErr.neo NeoError.CameraLoginFail))) :=
  ((c2_login_classification
      (AnyErr.context mainTag (AnyErr.neo NeoError.CameraLoginFail))
      NeoError.CameraLoginFail rfl).1).mpr rfl

/-- Claim C4: immediately after handling any number of consecutive
retryable failures, the camera value the next supervisor iteration starts
from is in the Disconnected state (mod.rs lines 115-118). -/
theorem c4_retry_state_disconnected (s : SupState) (n : Nat) :
    (handleRetry^[n + 1] s).state = LifecycleState.Disconnected := by
  rw [Function.iterate_succ_apply']
  rfl

/-- Claim C9: the login classification step returns no classification —
the unwrap of the failed downcast panics — for every login error whose
cause chain holds no neolink_core::Error. -/
theorem c9_classification_panics (e : AnyErr)
    (h : AnyErr.downcast_neolink e = none) : classify_login e = none := by
  simp [classify_login, h]

/-- Witness for claim C9: an error from another library is not
classified. -/
theorem c9_classification_panics_witness :
    classify_login (AnyErr.foreign 11) = none :=
  c9_classification_panics (AnyErr.foreign 11) rfl

/-- The registry's tag table (the medias map of server.rs): which tags have
a media entry; for the claims only membership matters. -/
structure Registry where
  known : List Tag

/-- server.rs lines 373-383: the command sender of a tag, present exactly
when the tag has a media entry. -/
def get_sender (reg : Registry) (tag : Tag) : Option Unit :=
  if tag ∈ reg.known then some () else none

/-- The commands a tag's factory channel accepts (server.rs). -/
inductive FactoryCommand
  | ClearBuffer
  | JumpToLive
  | Pause
  | Resume
deriving DecidableEq

/-- Observable actions of the decision engine, in program order: a command
delivered to a tag's channel, a clear of the not-ready sessions of a tag, a
stop() call on the streaming state, or a stream() call on the paused
state. -/
inductive Event
  | cmd (c : FactoryCommand) (tag : Tag)
  | clearNotReady (tag : Tag)
  | stopCall
  | streamCall
deriving DecidableEq

/-- The common error message of the command senders (server.rs lines
297-324). -/
def noSuchTagMsg : String := "No such tag"

/-- server.rs lines 297-324 (jump_to_live, pause and resume share this
shape): deliver the command if the tag has a sender, otherwise return a
local error to the caller. -/
def send_command (reg : Registry) (c : FactoryCommand) (tag : Tag) :
    Except String Event :=
  match get_sender reg tag with
  | some _ => Except.ok (Event.cmd c tag)
  | none => Except.error noSuchTagMsg

/-- One command fan-out phase of camera_main: map every tag through the
sender, await the futures, collect the per-tag Results into a Vec and drop
it. Only the successfully delivered commands are observable events; the
errors are discarded with the Vec. -/
def broadcast (reg : Registry) (c : FactoryCommand) (tags : List Tag) :
    List Event :=
  tags.filterMap (fun t =>
    match send_command reg c t with
    | Except.ok ev => some ev
    | Except.error _ => none)

theorem broadcast_known (reg : Registry) (c : FactoryCommand)
    (tags : List Tag) (h : ∀ t ∈ tags, t ∈ reg.known) :
    broadcast reg c tags = tags.map (Event.cmd c) := by
  induction tags with
  | nil => rfl
  | cons t ts ih =>
    have ht : t ∈ reg.known := h t (by simp)
    have hts : ∀ x ∈ ts, x ∈ reg.known := fun x hx => h x (by simp [hx])
    have hsend : send_command reg c t = Except.ok (Event.cmd c t) := by
      simp [send_command, get_sender, ht]
    simp only [broadcast, List.filterMap_cons, hsend, List.map_cons]
    exact congrArg (Event.cmd c t :: ·) (ih hts)

/-- mod.rs lines 211-216: the conjunction of all tags' buffer_ready
answers, a failed query (None) standing in for false. -/
def allBuffersReady (ready : Tag → Option Bool) (tags : List Tag) : Bool :=
  tags.all (fun tag => (ready tag).getD false)

theorem allBuffersReady_of_none (ready : Tag → Option Bool)
    (tags : List Tag) (t : Tag) (ht : t ∈ tags) (hn : ready t = none) :
    allBuffersReady ready tags = false := by
  unfold allBuffersReady
  rw [List.all_eq_false]
  exact ⟨t, ht, by simp [hn]⟩

/-- The polling branch of the buffer-wait select (mod.rs lines 207-222):
tick, query every tag, break out at the first tick where all report ready.
The fuel argument bounds how many ticks the run is observed for; i is the
tick about to be polled. -/
def pollUntilReady (polls : Nat → Tag → Option Bool) (tags : List Tag) :
    Nat → Nat → Option Nat
  | _, 0 => none
  | i, fuel + 1 =>
    if allBuffersReady (polls i) tags then some i
    else pollUntilReady polls tags (i + 1) fuel

theorem pollUntilReady_ready (polls : Nat → Tag → Option Bool)
    (tags : List Tag) :
    ∀ (fuel i j : Nat), pollUntilReady polls tags i fuel = some j →
      allBuffersReady (polls j) tags = true := by
  intro fuel
  induction fuel with
  | zero => intro i j h; simp [pollUntilReady] at h
  | succ fuel ih =>
    intro i j h
    simp only [pollUntilReady] at h
    cases hr : allBuffersReady (polls i) tags with
    | true =>
      rw [hr] at h
      simp at h
      subst h
      exact hr
    | false =>
      rw [hr] at h
      simp at h
      exact ih (i + 1) j h

/-- Outcome of the buffer-preparation select (mod.rs lines 206-225): either
the polling branch broke out at tick i because every tag reported ready, or
streaming.join() resolved first with the given result. -/
inductive WaitOutcome
  | polledReady (i : Nat)
  | joinResolved (r : Except AnyErr Unit)

/-- The value the fired branch of the buffer-wait select hands to the
surrounding expression. -/
def waitResult : WaitOutcome → Except AnyErr Unit
  | .polledReady _ => Except.ok ()
  | .joinResolved r => r

/-- A wait outcome is valid against the poll history when the polling
branch reports exactly the tick at which the loop first saw every tag
ready; a join resolution carries no constraint. -/
def WaitValid (polls : Nat → Tag → Option Bool) (tags : List Tag) :
    WaitOutcome → Prop
  | .polledReady i => pollUntilReady polls tags 0 (i + 1) = some i
  | .joinResolved _ => True

/-- Context message of the buffer-wait error path (mod.rs line 226). -/
def buffersErrMsg : String := "Error while waiting for buffers"

/-- mod.rs lines 206-243: wait for the buffers, then issue jump_to_live for
every tag (results dropped) and clear_session_notready for every known tag.
An error resolving the wait unwinds as Retryable with context. -/
def bufferPhase (reg : Registry) (tags : List Tag) (w : WaitOutcome) :
    List Event × Except CameraFailureKind Unit :=
  match waitResult w with
  | Except.error e =>
      ([], Except.error (CameraFailureKind.Retry (AnyErr.context buffersErrMsg e)))
  | Except.ok _ =>
      (broadcast reg FactoryCommand.JumpToLive tags ++
        (tags.filter (fun t => decide (t ∈ reg.known))).map Event.clearNotReady,
       Except.ok ())

/-- Claim C3 as stated: whenever the buffer phase issues jump to live for
some tag under a valid wait outcome, there is a poll tick at which every
tag reported ready. -/
def C3Statement : Prop :=
  ∀ (reg : Registry) (polls : Nat → Tag → Option Bool) (tags : List Tag)
    (w : WaitOutcome) (t : Tag),
    WaitValid polls tags w →
    Event.cmd FactoryCommand.JumpToLive t ∈ (bufferPhase reg tags w).1 →
    ∃ i, allBuffersReady (polls i) tags = true

/-- Claim C3 is false as stated: when streaming.join() resolves without
error during the wait, jump to live is issued although every readiness
query failed and no tag ever reported ready. -/
theorem c3_counterexample : ¬ C3Statement := by
  intro hC
  obtain ⟨i, hi⟩ := hC (Registry.mk [mainTag]) (fun _ _ => none) [mainTag]
    (WaitOutcome.joinResolved (Except.ok ())) mainTag trivial (by decide)
  have hfalse : allBuffersReady ((fun (_ : Nat) (_ : Tag) => none) i) [mainTag]
      = false := rfl
  rw [hfalse] at hi
  cases hi

/-- Claim C3 amended: jump to live is issued only when either the poll loop
broke at a tick where every one of the source's tags reported ready —
queries that fail counting as not-ready — or streaming.join() resolved
without error during the wait, in which case jump to live is issued
regardless of readiness; moreover any tick at which some tag's readiness
query fails counts as not all-ready. -/
theorem c3_gating (reg : Registry) (polls : Nat → Tag → Option Bool)
    (tags : List Tag) (w : WaitOutcome) (t : Tag)
    (hv : WaitValid polls tags w)
    (hj : Event.cmd FactoryCommand.JumpToLive t ∈ (bufferPhase reg tags w).1) :
    ((∃ i, pollUntilReady polls tags 0 (i + 1) = some i ∧
        allBuffersReady (polls i) tags = true) ∨
      w = WaitOutcome.joinResolved (Except.ok ())) ∧
    (∀ (j : Nat) (t2 : Tag), t2 ∈ tags → polls j t2 = none →
      allBuffersReady (polls j) tags = false) := by
  constructor
  · cases w with
    | polledReady i =>
      exact Or.inl ⟨i, hv, pollUntilReady_ready polls tags (i + 1) 0 i hv⟩
    | joinResolved r =>
      cases r with
      | ok u => cases u; exact Or.inr rfl
      | error e => simp [bufferPhase, waitResult] at hj
  · intro j t2 h2 hn
    exact allBuffersReady_of_none (polls j) tags t2 h2 hn

/-- A concrete poll history for the C3 witness: every query fails at tick
zero, every query answers ready afterwards. -/
def readyPolls : Nat → Tag → Option Bool :=
  fun i _ => if i = 0 then none else some true

/-- Witness for the amended claim C3: the poll branch breaks at tick one,
where the single tag reports ready. -/
theorem c3_gating_witness :
    ((∃ i, pollUntilReady readyPolls [mainTag] 0 (i + 1) = some i ∧
        allBuffersReady (readyPolls i) [mainTag] = true) ∨
      WaitOutcome.polledReady 1 = WaitOutcome.joinResolved (Except.ok ())) ∧
    (∀ (j : Nat) (t2 : Tag), t2 ∈ [mainTag] → readyPolls j t2 = none →
      allBuffersReady (readyPolls j) [mainTag] = false) :=
  c3_gating (Registry.mk [mainTag]) readyPolls [mainTag]
    (WaitOutcome.polledReady 1) mainTag
    (show pollUntilReady readyPolls [mainTag] 0 2 = some 1 by decide)
    (by decide)

/-- mod.rs lines 269, 301 and 325: the total client count over a source's
tags, a failed per-tag query contributing zero. -/
def total_clients (counts : Tag → Option Nat) (tags : List Tag) : Nat :=
  tags.foldl (fun acc t => acc + (counts t).getD 0) 0

/-- The zero-client pause poll fires when the total reaches zero
(mod.rs line 271). -/
def pausePollFires (counts : Tag → Option Nat) (tags : List Tag) : Bool :=
  total_clients counts tags == 0

/-- The client resume polls fire when the total is positive
(mod.rs lines 302 and 326). -/
def resumePollFires (counts : Tag → Option Nat) (tags : List Tag) : Bool :=
  decide (0 < total_clients counts tags)

theorem foldl_add_getD (g : Tag → Nat) (tags : List Tag) :
    ∀ a : Nat, tags.foldl (fun acc t => acc + g t) a = a + (tags.map g).sum := by
  induction tags with
  | nil => intro a; simp
  | cons t ts ih =>
    intro a
    simp only [List.foldl_cons, List.map_cons, List.sum_cons, ih (a + g t)]
    omega

/-- Claim C10: the total client count is the sum over the source's tags of
the per-tag count with a failed query contributing zero; hence when every
per-tag query fails, the total is zero, the zero-client pause trigger fires
and the client resume trigger does not, with no error raised. -/
theorem c10_client_count (counts : Tag → Option Nat) (tags : List Tag) :
    total_clients counts tags = (tags.map (fun t => (counts t).getD 0)).sum ∧
    ((∀ t ∈ tags, counts t = none) →
      pausePollFires counts tags = true ∧ resumePollFires counts tags = false) := by
  have h1 : total_clients counts tags =
      (tags.map (fun t => (counts t).getD 0)).sum := by
    unfold total_clients
    rw [foldl_add_getD]
    omega
  refine ⟨h1, fun hall => ?_⟩
  have hz : total_clients counts tags = 0 := by
    rw [h1]
    apply List.sum_eq_zero
    intro x hx
    obtain ⟨t, ht, rfl⟩ := List.mem_map.mp hx
    rw [hall t ht]
    rfl
  constructor
  · simp [pausePollFires, hz]
  · simp [resumePollFires, hz]

/-- Witness for claim C10: with both tags' queries failing, the pause poll
fires and the resume poll does not. -/
theorem c10_client_count_witness :
    pausePollFires (fun _ => none) [mainTag, subTag] = true ∧
    resumePollFires (fun _ => none) [mainTag, subTag] = false :=
  (c10_client_count (fun _ => none) [mainTag, subTag]).2 (fun _ _ => rfl)

/-- The pause block of a camera's config: only these two flags steer the
decision engine's control flow (mod.rs reads pause.on_motion and
pause.on_disconnect; the spec calls the latter on_client). -/
structure PauseConfig where
  on_motion : Bool
  on_disconnect : Bool
deriving DecidableEq

/-- Context messages wrapped around failures of the decision engine
(mod.rs lines 261, 279, 291, 309, 317, 341, 353). -/
def motionErrMsg : String := "Error while processing motion messages"

/-- Context message of the combined motion and client resume branch. -/
def motionClientErrMsg : String := "Error while processing motion/client messages"

/-- Context message of the streaming race error path. -/
def streamingErrMsg : String := "Error while streaming"

/-- Context message of the stop() error path. -/
def stopErrMsg : String := "Could not stop stream"

/-- Context message of the paused race error path. -/
def pausedErrMsg : String := "Error while paused"

/-- Context message of the stream() error path. -/
def startErrMsg : String := "Could not start stream"

/-- The branch of the streaming select that fired (mod.rs lines 247-278):
streaming.join() resolving, the motion-stop listener, or the zero-client
poll (which only ever completes with Ok). -/
inductive StreamTrigger
  | joinResolved (r : Except AnyErr Unit)
  | motionStopped (r : Except AnyErr Unit)
  | zeroClients

/-- The select guards of the streaming race: join is always enabled, the
motion branch only under pause.on_motion, the zero-client branch only under
pause.on_disconnect. -/
def StreamTriggerEnabled (cfg : PauseConfig) : StreamTrigger → Prop
  | .joinResolved _ => True
  | .motionStopped _ => cfg.on_motion = true
  | .zeroClients => cfg.on_disconnect = true

/-- The value the fired streaming branch hands to the surrounding match; a
motion error is rewrapped by anyhow (mod.rs line 261). -/
def streamRaceResult : StreamTrigger → Except AnyErr Unit
  | .joinResolved r => r
  | .motionStopped (Except.ok _) => Except.ok ()
  | .motionStopped (Except.error e) => Except.error (AnyErr.context motionErrMsg e)
  | .zeroClients => Except.ok ()

/-- The branch of the paused select that fired (mod.rs lines 294-340); at
most one branch is enabled for any flag combination and the else branch
resumes immediately when no branch is enabled. -/
inductive PausedTrigger
  | motionAndClient (r : Except AnyErr Unit)
  | motionOnly (r : Except AnyErr Unit)
  | clientOnly
  | genericResume

/-- The select guards of the paused race (mod.rs lines 307, 315, 330 and
the else branch). -/
def PausedTriggerEnabled (cfg : PauseConfig) : PausedTrigger → Prop
  | .motionAndClient _ => cfg.on_motion = true ∧ cfg.on_disconnect = true
  | .motionOnly _ => cfg.on_motion = true ∧ cfg.on_disconnect = false
  | .clientOnly => cfg.on_disconnect = true ∧ cfg.on_motion = false
  | .genericResume => cfg.on_motion = false ∧ cfg.on_disconnect = false

/-- The value the fired paused branch hands to the surrounding match, with
the motion-listener errors context-wrapped (mod.rs lines 309 and 317). -/
def pausedRaceResult : PausedTrigger → Except AnyErr Unit
  | .motionAndClient (Except.ok _) => Except.ok ()
  | .motionAndClient (Except.error e) =>
      Except.error (AnyErr.context motionClientErrMsg e)
  | .motionOnly (Except.ok _) => Except.ok ()
  | .motionOnly (Except.error e) => Except.error (AnyErr.context motionErrMsg e)
  | .clientOnly => Except.ok ()
  | .genericResume => Except.ok ()

/-- How the environment resolved one iteration of the streaming/paused
loop: which streaming branch fired, the result of streaming.stop(), which
paused branch fired, and the result of paused.stream(). -/
structure EnvStep where
  sTrig : StreamTrigger
  stopR : Except AnyErr Unit
  pTrig : PausedTrigger
  streamR : Except AnyErr Unit

/-- The fired branches must be enabled under the camera's pause flags. -/
def EnvStepValid (cfg : PauseConfig) (env : EnvStep) : Prop :=
  StreamTriggerEnabled cfg env.sTrig ∧ PausedTriggerEnabled cfg env.pTrig

/-- One iteration of the streaming/paused loop (mod.rs lines 245-361): race
while streaming; on a non-error outcome issue pause commands for every tag
(results dropped), call stop(), run the paused race, issue jump to live for
every tag (results dropped), call stream(), and issue resume commands for
every tag (results dropped). Every failure is context-wrapped and
classified Retryable. -/
def engineIteration (reg : Registry) (tags : List Tag) (env : EnvStep) :
    List Event × Except CameraFailureKind Unit :=
  match streamRaceResult env.sTrig with
  | Except.error e =>
      ([], Except.error (CameraFailureKind.Retry (AnyErr.context streamingErrMsg e)))
  | Except.ok _ =>
    let pauseEvents := broadcast reg FactoryCommand.Pause tags
    match env.stopR with
    | Except.error e =>
        (pauseEvents,
         Except.error (CameraFailureKind.Retry (AnyErr.context stopErrMsg e)))
    | Except.ok _ =>
      match pausedRaceResult env.pTrig with
      | Except.error e =>
          (pauseEvents ++ [Event.stopCall],
           Except.error (CameraFailureKind.Retry (AnyErr.context pausedErrMsg e)))
      | Except.ok _ =>
        let jumpEvents := broadcast reg FactoryCommand.JumpToLive tags
        match env.streamR with
        | Except.error e =>
            (pauseEvents ++ [Event.stopCall] ++ jumpEvents,
             Except.error (CameraFailureKind.Retry (AnyErr.context startErrMsg e)))
        | Except.ok _ =>
            (pauseEvents ++ [Event.stopCall] ++ jumpEvents ++ [Event.streamCall] ++
              broadcast reg FactoryCommand.Resume tags,
             Except.ok ())

/-- Claim C5 as stated: with both pause flags off, the engine reaches the
pause sequence (calls stop()) only on a stream failure from join. -/
def C5Statement : Prop :=
  ∀ (reg : Registry) (tags : List Tag) (env : EnvStep),
    EnvStepValid (PauseConfig.mk false false) env →
    Event.stopCall ∈ (engineIteration reg tags env).1 →
    ∃ e, streamRaceResult env.sTrig = Except.error e

/-- Claim C5 is false as stated: when streaming.join() resolves without
error — the stream ending for a reason other than an error — the engine
leaves Streaming into the pause sequence although no stream failure
occurred. -/
theorem c5_counterexample : ¬ C5Statement := by
  intro hC
  obtain ⟨e, he⟩ := hC (Registry.mk [mainTag]) [mainTag]
    (EnvStep.mk (StreamTrigger.joinResolved (Except.ok ())) (Except.ok ())
      PausedTrigger.genericResume (Except.ok ()))
    ⟨True.intro, rfl, rfl⟩ (by decide)
  simp [streamRaceResult] at he

/-- Claim C5 amended: with pause.on_motion = false and
pause.on_disconnect = false, the motion and zero-client triggers never
fire; the only streaming-race branch that can fire is streaming.join()
resolving, and when it resolves with an error the iteration unwinds that
error as Retryable. -/
theorem c5_join_only (cfg : PauseConfig) (reg : Registry) (tags : List Tag)
    (env : EnvStep) (hm : cfg.on_motion = false)
    (hd : cfg.on_disconnect = false) (hv : EnvStepValid cfg env) :
    ∃ r, env.sTrig = StreamTrigger.joinResolved r ∧
      (∀ e, r = Except.error e →
        engineIteration reg tags env =
          ([], Except.error (CameraFailureKind.Retry
            (AnyErr.context streamingErrMsg e)))) := by
  obtain ⟨hs, _⟩ := hv
  cases htrig : env.sTrig with
  | joinResolved r =>
    refine ⟨r, rfl, fun e he => ?_⟩
    subst he
    simp [engineIteration, htrig, streamRaceResult]
  | motionStopped r =>
    rw [htrig] at hs
    rw [show StreamTriggerEnabled cfg (StreamTrigger.motionStopped r) =
      (cfg.on_motion = true) from rfl, hm] at hs
    cases hs
  | zeroClients =>
    rw [htrig] at hs
    rw [show StreamTriggerEnabled cfg StreamTrigger.zeroClients =
      (cfg.on_disconnect = true) from rfl, hd] at hs
    cases hs

/-- Witness for the amended claim C5 with a concrete valid environment. -/
theorem c5_join_only_witness :
    ∃ r, (EnvStep.mk (StreamTrigger.joinResolved (Except.error (AnyErr.foreign 5)))
        (Except.ok ()) PausedTrigger.genericResume (Except.ok ())).sTrig =
        StreamTrigger.joinResolved r ∧
      (∀ e, r = Except.error e →
        engineIteration (Registry.mk [mainTag]) [mainTag]
          (EnvStep.mk (StreamTrigger.joinResolved (Except.error (AnyErr.foreign 5)))
            (Except.ok ()) PausedTrigger.genericResume (Except.ok ())) =
          ([], Except.error (CameraFailureKind.Retry
            (AnyErr.context streamingErrMsg e)))) :=
  c5_join_only (PauseConfig.mk false false) (Registry.mk [mainTag]) [mainTag]
    (EnvStep.mk (StreamTrigger.joinResolved (Except.error (AnyErr.foreign 5)))
      (Except.ok ()) PausedTrigger.genericResume (Except.ok ()))
    rfl rfl ⟨True.intro, rfl, rfl⟩

/-- Claim C6: with every tag registered, a successful iteration performs,
in order, pause commands for all tags, then the stop() call, then — on the
resume decision — jump to live for all tags, then the stream() call, then
resume commands for all tags. -/
theorem c6_ordering (reg : Registry) (tags : List Tag) (env : EnvStep)
    (hk : ∀ t ∈ tags, t ∈ reg.known)
    (h1 : streamRaceResult env.sTrig = Except.ok ())
    (h2 : env.stopR = Except.ok ())
    (h3 : pausedRaceResult env.pTrig = Except.ok ())
    (h4 : env.streamR = Except.ok ()) :
    engineIteration reg tags env =
      (tags.map (Event.cmd FactoryCommand.Pause) ++ [Event.stopCall] ++
        tags.map (Event.cmd FactoryCommand.JumpToLive) ++ [Event.streamCall] ++
        tags.map (Event.cmd FactoryCommand.Resume), Except.ok ()) := by
  simp only [engineIteration, h1, h2, h3, h4]
  rw [broadcast_known reg FactoryCommand.Pause tags hk,
    broadcast_known reg FactoryCommand.JumpToLive tags hk,
    broadcast_known reg FactoryCommand.Resume tags hk]

/-- Witness for claim C6 with two registered tags and a fully successful
iteration. -/
theorem c6_ordering_witness :
    engineIteration (Registry.mk [mainTag, subTag]) [mainTag, subTag]
      (EnvStep.mk (StreamTrigger.joinResolved (Except.ok ())) (Except.ok ())
        PausedTrigger.genericResume (Except.ok ())) =
      ([mainTag, subTag].map (Event.cmd FactoryCommand.Pause) ++ [Event.stopCall] ++
        [mainTag, subTag].map (Event.cmd FactoryCommand.JumpToLive) ++
        [Event.streamCall] ++
        [mainTag, subTag].map (Event.cmd FactoryCommand.Resume), Except.ok ()) :=
  c6_ordering (Registry.mk [mainTag, subTag]) [mainTag, subTag]
    (EnvStep.mk (StreamTrigger.joinResolved (Except.ok ())) (Except.ok ())
      PausedTrigger.genericResume (Except.ok ()))
    (by decide) rfl rfl rfl rfl

/-- Claim C7 as stated: an unknown-tag error returned by a registry command
during the engine loop makes the iteration unwind with a Retryable
failure. -/
def C7Statement : Prop :=
  ∀ (reg : Registry) (tags : List Tag) (env : EnvStep) (cfg : PauseConfig),
    EnvStepValid cfg env →
    (∃ t ∈ tags, ∃ c, send_command reg c t = Except.error noSuchTagMsg) →
    ∃ e, (engineIteration reg tags env).2 =
      Except.error (CameraFailureKind.Retry e)

/-- Claim C7 is false as stated: with a tag that was never created, every
pause, jump-to-live and resume command returns a local unknown-tag error,
yet the iteration completes with Ok — the errors are collected into the
awaited Vec and dropped, and nothing unwinds to the supervisor. -/
theorem c7_counterexample : ¬ C7Statement := by
  intro hC
  obtain ⟨e, he⟩ := hC (Registry.mk []) [mainTag]
    (EnvStep.mk (StreamTrigger.joinResolved (Except.ok ())) (Except.ok ())
      PausedTrigger.genericResume (Except.ok ()))
    (PauseConfig.mk false false)
    ⟨True.intro, rfl, rfl⟩
    ⟨mainTag, by decide, FactoryCommand.Pause, rfl⟩
  simp [engineIteration, streamRaceResult, pausedRaceResult] at he

/-- Claim C7 amended: unknown-tag registry command errors are surfaced as
local Err values to the engine but collected and discarded — the outcome of
an iteration never depends on the registry's tag table — and every failure
an iteration does report is Retryable, never Fatal and never a crash. -/
theorem c7_commands_discarded (reg reg2 : Registry) (tags : List Tag)
    (env : EnvStep) :
    (engineIteration reg tags env).2 = (engineIteration reg2 tags env).2 ∧
    ((engineIteration reg tags env).2 = Except.ok () ∨
      ∃ e, (engineIteration reg tags env).2 =
        Except.error (CameraFailureKind.Retry e)) := by
  rcases h1 : streamRaceResult env.sTrig with e1 | u1 <;>
    rcases h2 : env.stopR with e2 | u2 <;>
      rcases h3 : pausedRaceResult env.pTrig with e3 | u3 <;>
        rcases h4 : env.streamR with e4 | u4 <;>
          simp [engineIteration, h1, h2, h3, h4]

/-- The result with which a task of the fleet's join set completed:
a panic (a JoinError from join_next), or the Result the task returned. -/
inductive TaskResult
  | panicked
  | finished (r : Except AnyErr Unit)

/-- How the fleet coordinator's join loop ended. -/
inductive FleetExit
  | allOk
  | panickedTask
  | taskError (e : AnyErr)

/-- Observable outcome of the join loop: whether rtsp.quit() was called,
how the loop exited, and how many tasks were actually joined before the
function returned. -/
structure FleetOutcome where
  quitSignalled : Bool
  exit : FleetExit
  tasksJoined : Nat

/-- The fleet coordinator's join loop (mod.rs lines 140-151) over the task
results in completion order: a panicked task or a task returning Err makes
the loop call rtsp.quit() and return the originating error at once via the
double question mark, leaving the remaining tasks unjoined; a task
returning Ok is joined and the loop continues. -/
def fleetJoin : List TaskResult → FleetOutcome
  | [] => FleetOutcome.mk false FleetExit.allOk 0
  | TaskResult.panicked :: _ => FleetOutcome.mk true FleetExit.panickedTask 1
  | TaskResult.finished (Except.error e) :: _ =>
      FleetOutcome.mk true (FleetExit.taskError e) 1
  | TaskResult.finished (Except.ok _) :: rest =>
      let o := fleetJoin rest
      FleetOutcome.mk o.quitSignalled o.exit (o.tasksJoined + 1)

theorem fleetJoin_all_ok (l : List TaskResult)
    (h : ∀ r ∈ l, r = TaskResult.finished (Except.ok ())) :
    fleetJoin l = FleetOutcome.mk false FleetExit.allOk l.length := by
  induction l with
  | nil => rfl
  | cons r rest ih =>
    have hr := h r (by simp)
    subst hr
    have hrest : ∀ x ∈ rest, x = TaskResult.finished (Except.ok ()) :=
      fun x hx => h x (by simp [hx])
    simp [fleetJoin, ih hrest]

/-- Claim C8 is false as stated: with a first task failing and a second
task still pending, the join loop signals quit and exits with the
originating error after joining only one of the two tasks — the remaining
task is not awaited. -/
theorem c8_counterexample :
    fleetJoin [TaskResult.finished (Except.error (AnyErr.foreign 7)),
        TaskResult.finished (Except.ok ())] =
      FleetOutcome.mk true (FleetExit.taskError (AnyErr.foreign 7)) 1 ∧
    [TaskResult.finished (Except.error (AnyErr.foreign 7)),
        TaskResult.finished (Except.ok ())].length = 2 :=
  ⟨rfl, rfl⟩

/-- Claim C8 amended: a task ending in a panic or an error result causes
the registry service to be signalled to shut down and the join loop to
exit immediately with the originating error, without awaiting the
remaining tasks; a run in which every task ends Ok joins them all and
never signals shutdown. -/
theorem c8_failure_handling (e : AnyErr) (rest l : List TaskResult)
    (hok : ∀ r ∈ l, r = TaskResult.finished (Except.ok ())) :
    fleetJoin (TaskResult.finished (Except.error e) :: rest) =
      FleetOutcome.mk true (FleetExit.taskError e) 1 ∧
    fleetJoin (TaskResult.panicked :: rest) =
      FleetOutcome.mk true FleetExit.panickedTask 1 ∧
    fleetJoin l = FleetOutcome.mk false FleetExit.allOk l.length :=
  ⟨rfl, rfl, fleetJoin_all_ok l hok⟩

/-- Witness for the amended claim C8 at concrete task lists. -/
theorem c8_failure_handling_witness :
    fleetJoin [TaskResult.finished (Except.error (AnyErr.foreign 3)),
        TaskResult.finished (Except.ok ())] =
      FleetOutcome.mk true (FleetExit.taskError (AnyErr.foreign 3)) 1 ∧
    fleetJoin [TaskResult.panicked, TaskResult.finished (Except.ok ())] =
      FleetOutcome.mk true FleetExit.panickedTask 1 ∧
    fleetJoin [TaskResult.finished (Except.ok ())] =
      FleetOutcome.mk false FleetExit.allOk 1 :=
  c8_failure_handling (AnyErr.foreign 3) [TaskResult.finished (Except.ok ())]
    [TaskResult.finished (Except.ok ())]
    (by intro r hr; simp at hr; exact hr)

end NeolinkRtsp
